import Mathlib

/-!
Verification model of the QUIC listener / connection-dispatch core
(`pingora-core/src/protocols/l4/quic/mod.rs`).

The embedding is shallow and executable:

* The connection registry (`HashMap<ConnectionId, ConnectionHandle>`) is an
  association list with unique keys; `lookupReg`, `removeReg`, `insertReg`
  mirror `get_mut`, `remove`, `insert`.
* One iteration of the routing part of `Listener::accept` (source lines
  243-371, after a successful header parse) is the pure function `routeStep`.
  The outcome of the non-blocking `response_rx.try_recv()` is external
  concurrency state; it is modelled as the `ChanRead` field stored in an
  incoming handle (the value the channel would yield at this instant).
  The result of `Listener::recv_connection` is the boolean oracle `recvOk`.
  The `RouteAction` component records which arm of the source the iteration
  took (continue, break with error, return a new connection, ...).
* `TxBurst` mirrors the burst controller verbatim; the `f64` loss rate is
  modelled exactly by `LossRate`: `nan` and `inf` follow IEEE-754 division
  `lost/0.0` semantics, and finite values keep the exact fraction
  `lost/sent`, compared by cross-multiplication.  All comparisons appearing
  in the claims are far from any double-rounding boundary (or are exact
  equalities on both sides), so exact arithmetic and `f64` arithmetic take
  the same branch at every input considered.
* `Connection::establish`, `ConnectionHandle::establish` and
  `impl Drop for Connection` are the pure functions `Connection.establish`,
  `ConnectionHandle.establish` and `Connection.dropEffects`; the latter
  records the externally visible effects of the destructor (whether the TX
  task was aborted, and which id — if any — was sent on the drop channel).
-/

namespace Quic

/-- Connection ids are opaque byte strings (the Rust `ConnectionId`). -/
abbrev ConnId := List Nat

/-- The packet types of `quiche::Type`. -/
inductive PacketType where
  | initial
  | retry
  | handshake
  | zeroRTT
  | versionNegotiation
  | short
deriving DecidableEq

/-- The fields of the parsed `quiche::Header` the routing code consults. -/
structure Header where
  dcid : ConnId
  ty : PacketType
deriving DecidableEq

/-- Listener-side `EstablishedHandle`: the connection id plus an identity tag
standing in for the shared engine / wakers (`Arc` identities). -/
structure EstablishedHandle where
  connection_id : ConnId
  engine : Nat
deriving DecidableEq

/-- What `response_rx.try_recv()` yields at the instant the listener polls an
incoming handle: a queued `HandshakeResponse` (`Established`/`Ignored`/
`Rejected`), `empty` (`TryRecvError::Empty`), or `disconnected`
(`TryRecvError::Disconnected`). -/
inductive ChanRead where
  | est (e : EstablishedHandle)
  | ignored
  | rejected
  | empty
  | disconnected
deriving DecidableEq

/-- Listener-side `ConnectionHandle`. -/
inductive ConnectionHandle where
  | incoming (resp : ChanRead)
  | established (e : EstablishedHandle)
deriving DecidableEq

/-- The connection registry `Mutex<HashMap<ConnectionId, ConnectionHandle>>`,
as an association list with unique keys. -/
abbrev Registry := List (ConnId × ConnectionHandle)

/-- `HashMap::get` / `get_mut`. -/
def lookupReg : Registry → ConnId → Option ConnectionHandle
  | [], _ => none
  | (k, v) :: rest, id => if k = id then some v else lookupReg rest id

/-- `HashMap::remove` (keys are unique, so removing every occurrence agrees
with removing the entry). -/
def removeReg : Registry → ConnId → Registry
  | [], _ => []
  | (k, v) :: rest, id =>
      if k = id then removeReg rest id else (k, v) :: removeReg rest id

/-- `HashMap::insert`: replaces any existing entry for the key. -/
def insertReg (reg : Registry) (id : ConnId) (h : ConnectionHandle) : Registry :=
  (id, h) :: removeReg reg id

/-- `ConnectionHandle::establish` (source lines 407-417): an incoming handle
is replaced by the established one; an already-established handle is left
untouched (the `Established` arm is an empty block). -/
def ConnectionHandle.establish : ConnectionHandle → EstablishedHandle → ConnectionHandle
  | .incoming _, e => .established e
  | .established prev, _ => .established prev

/-- Which arm of the routing code an accept iteration took. -/
inductive RouteAction where
  /-- `HandshakeResponse::Established`, engine `recv` succeeded: the registry
  handle was transitioned and the loop continues. -/
  | respEstablished (id : ConnId)
  /-- engine `recv` failed: the labelled break of the read loop with `Err(e)`. -/
  | recvFailed
  /-- `HandshakeResponse::Ignored` / `Rejected`: removal, then `continue`. -/
  | removedAfterResult
  /-- `TryRecvError::Empty`: the datagram is forwarded on `udp_tx`, then
  `continue`. -/
  | forwardedToHandshake (id : ConnId)
  /-- established handle, engine `recv` succeeded: `continue`. -/
  | recvIntoEngine (id : ConnId)
  /-- no handle and the packet is not `Initial`: datagram dropped. -/
  | droppedNonInitial
  /-- a fresh incoming handle was inserted under `id` and
  `accept` returns the new `Connection`. -/
  | newIncoming (id : ConnId)
deriving DecidableEq

/-- Source lines 332-371: the code reached after the handle dispatch without
a `continue`/`break`/forward — drop non-`Initial` datagrams, otherwise create
a fresh incoming handle under `connId` (the current value of the `conn_id`
variable) and return the new connection.  The response channel of a fresh handle
was just created, so a `try_recv` on it would yield `empty`. -/
def fallThroughCreate (reg : Registry) (connId : ConnId) (hdr : Header) :
    Registry × RouteAction :=
  if hdr.ty = PacketType.initial then
    (insertReg reg connId (ConnectionHandle.incoming ChanRead.empty),
     RouteAction.newIncoming connId)
  else (reg, RouteAction.droppedNonInitial)

/-- Source lines 257-329: dispatch on the handle found under `connId`.
Note that the two removal sites use `header.dcid`, not `connId`, exactly as
the source does (`connections.remove(&header.dcid)`), and that the
`Disconnected` arm does not `continue`: it falls through to the
`Initial`-creation code with the registry already mutated. -/
def routeFound (recvOk : Bool) (reg : Registry) (connId : ConnId)
    (h : ConnectionHandle) (hdr : Header) : Registry × RouteAction :=
  match h with
  | .incoming resp =>
    match resp with
    | .est e =>
        if recvOk then
          (insertReg reg connId ((ConnectionHandle.incoming (ChanRead.est e)).establish e),
           RouteAction.respEstablished connId)
        else (reg, RouteAction.recvFailed)
    | .ignored => (removeReg reg hdr.dcid, RouteAction.removedAfterResult)
    | .rejected => (removeReg reg hdr.dcid, RouteAction.removedAfterResult)
    | .empty => (reg, RouteAction.forwardedToHandshake connId)
    | .disconnected => fallThroughCreate (removeReg reg hdr.dcid) connId hdr
  | .established _ =>
      if recvOk then (reg, RouteAction.recvIntoEngine connId)
      else (reg, RouteAction.recvFailed)

/-- One routing iteration of `Listener::accept` (source lines 243-371):
first lookup under `header.dcid`; on a miss, `conn_id` is reassigned to
`gen_cid(key, header)` (modelled by the parameter `genCid`, a function of the
client dcid only, since `gen_cid` signs `hdr.dcid`) and looked up again; the
found handle is dispatched, otherwise the miss path runs with
`conn_id = genCid dcid`. -/
def routeStep (genCid : ConnId → ConnId) (recvOk : Bool) (reg : Registry)
    (hdr : Header) : Registry × RouteAction :=
  match lookupReg reg hdr.dcid with
  | some h => routeFound recvOk reg hdr.dcid h hdr
  | none =>
    match lookupReg reg (genCid hdr.dcid) with
    | some h => routeFound recvOk reg (genCid hdr.dcid) h hdr
    | none => fallThroughCreate reg (genCid hdr.dcid) hdr

/-- The id under which the routing code finds a handle, if any: `header.dcid`
first, the derived id on a miss. -/
def chosenId (genCid : ConnId → ConnId) (reg : Registry) (hdr : Header) :
    Option ConnId :=
  match lookupReg reg hdr.dcid with
  | some _ => some hdr.dcid
  | none =>
    match lookupReg reg (genCid hdr.dcid) with
    | some _ => some (genCid hdr.dcid)
    | none => none

/-- Error type: the only variant the modelled code produces is
`ErrorType::InternalError`. -/
inductive ErrType where
  | internalError
deriving DecidableEq

/-- Caller-side `IncomingState`, reduced to the fields the modelled
operations consult. -/
structure IncomingStateM where
  connection_id : ConnId
deriving DecidableEq

/-- Caller-side `EstablishedState`: the connection id and the state of the TX
join handle at observation time (`tx_handle.is_finished()`). -/
structure EstablishedStateM where
  connection_id : ConnId
  txFinished : Bool
deriving DecidableEq

/-- Caller-side `Connection` value. -/
inductive Connection where
  | incoming (s : IncomingStateM)
  | established (s : EstablishedStateM)
deriving DecidableEq

/-- `Connection::establish` (source lines 420-438): an incoming value is
replaced by `Established(state)` and `Ok(())` is returned; an established
value is left unchanged and `InternalError` is returned. -/
def Connection.establish : Connection → EstablishedStateM →
    Except ErrType Unit × Connection
  | .incoming _, st => (Except.ok (), .established st)
  | .established s, _ => (Except.error ErrType.internalError, .established s)

/-- The externally visible effects of `impl Drop for Connection`. -/
structure DropEffects where
  txAborted : Bool
  dropIdSent : Option ConnId
deriving DecidableEq

/-- `impl Drop for Connection` (source lines 441-453): incoming values drop
silently; for an established value the TX task is aborted when it has not
finished.  Nothing is ever sent on the drop channel: the destructor never
touches `drop_connection`. -/
def Connection.dropEffects : Connection → DropEffects
  | .incoming _ => { txAborted := false, dropIdSent := none }
  | .established s => { txAborted := !s.txFinished, dropIdSent := none }

/-- `MAX_IPV6_BUF_SIZE` (source line 36). -/
def MAX_IPV6_BUF_SIZE : Nat := 65487

/-- Exact model of the `f64` loss rate: `nan` (`0.0 / 0.0`), `inf`
(`lost / 0.0` with `lost > 0`), or the exact fraction `num / den` with
`den > 0` in every reachable state. -/
inductive LossRate where
  | nan
  | inf
  | frac (num den : Nat)
deriving DecidableEq

/-- `stats.lost as f64 / stats.sent as f64` with IEEE-754 division-by-zero
semantics. -/
def lossRateOf (lost sent : Nat) : LossRate :=
  if sent = 0 then (if lost = 0 then LossRate.nan else LossRate.inf)
  else LossRate.frac lost sent

/-- The guard `loss_rate > self.loss_rate + 0.001`: `exceedsByMilli x s`
decides `x > s + 1/1000`.  Comparisons against `nan` are false, `inf + 1/1000`
is `inf`, and finite fractions are compared exactly by cross-multiplication
(`a/b > c/d + 1/1000` iff `a·1000·d > (1000·c + d)·b` for positive
denominators). -/
def LossRate.exceedsByMilli : LossRate → LossRate → Bool
  | .nan, _ => false
  | .inf, .nan => false
  | .inf, .inf => false
  | .inf, .frac _ _ => true
  | .frac _ _, .nan => false
  | .frac _ _, .inf => false
  | .frac a b, .frac c d => decide ((1000 * c + d) * b < a * (1000 * d))

/-- The two cumulative counters of `quiche::Stats` the burst controller
reads. -/
structure Stats where
  sent : Nat
  lost : Nat
deriving DecidableEq

/-- The burst controller state (source lines 553-557). -/
structure TxBurst where
  loss_rate : LossRate
  max_send_burst : Nat
  max_datagram_size : Nat
deriving DecidableEq

/-- `TxBurst::new` (source lines 560-566). -/
def TxBurst.new (max_send_udp_payload_size : Nat) : TxBurst :=
  { loss_rate := LossRate.frac 0 1
    max_send_burst := MAX_IPV6_BUF_SIZE
    max_datagram_size := max_send_udp_payload_size }

/-- The state mutation of `TxBurst::max_send_burst` (source lines 570-578):
when the loss rate rose by more than 0.001, `max_send_burst` becomes
`max_send_burst / 4 * 3` (integer division) clamped from below by
`max_datagram_size * 10`, and the loss rate is stored. -/
def TxBurst.observe (s : TxBurst) (stats : Stats) : TxBurst :=
  if (lossRateOf stats.lost stats.sent).exceedsByMilli s.loss_rate then
    { loss_rate := lossRateOf stats.lost stats.sent
      max_send_burst := Nat.max (s.max_send_burst / 4 * 3) (s.max_datagram_size * 10)
      max_datagram_size := s.max_datagram_size }
  else s

/-- `TxBurst::max_send_burst` (source lines 568-583): mutate the state as in
`observe`, then return `send_quantum.min(max_send_burst) / max_datagram_size
* max_datagram_size` (the Rust `usize` division would panic for
`max_datagram_size = 0`; the `Nat` division of the model makes it total, and the
divisor is proved positive for every state reachable from a positive
construction). -/
def TxBurst.maxSendBurst (s : TxBurst) (stats : Stats) (send_quantum : Nat) :
    Nat × TxBurst :=
  (Nat.min send_quantum (s.observe stats).max_send_burst
      / (s.observe stats).max_datagram_size * (s.observe stats).max_datagram_size,
   s.observe stats)

/-- One observation fed to the burst controller by the TX loop. -/
structure Obs where
  stats : Stats
  send_quantum : Nat

/-- A sequence of `max_send_burst` calls, keeping the controller state. -/
def runBurst : TxBurst → List Obs → TxBurst
  | s, [] => s
  | s, o :: rest => runBurst (s.maxSendBurst o.stats o.send_quantum).2 rest

/-- The state invariant of the burst controller for a construction parameter
`p`: the datagram size is the construction parameter and the stored burst is
between its clamp floor and the initial buffer size. -/
def BurstInv (p : Nat) (s : TxBurst) : Prop :=
  s.max_datagram_size = p ∧ p * 10 ≤ s.max_send_burst ∧
    s.max_send_burst ≤ MAX_IPV6_BUF_SIZE

end Quic

namespace Quic

theorem lookupReg_removeReg_self (reg : Registry) (id : ConnId) :
    lookupReg (removeReg reg id) id = none := by
  induction reg with
  | nil => rfl
  | cons p rest ih =>
    obtain ⟨k, v⟩ := p
    by_cases h : k = id <;> simp [removeReg, lookupReg, h, ih]

theorem lookupReg_removeReg_ne (reg : Registry) (id k : ConnId) (h : k ≠ id) :
    lookupReg (removeReg reg id) k = lookupReg reg k := by
  induction reg with
  | nil => rfl
  | cons p rest ih =>
    obtain ⟨k2, v⟩ := p
    by_cases h2 : k2 = id
    · subst h2
      simp [removeReg, lookupReg, ih, Ne.symm h]
    · by_cases h3 : k2 = k <;> simp [removeReg, lookupReg, h, h2, h3, ih]

theorem lookupReg_insertReg_self (reg : Registry) (id : ConnId) (h : ConnectionHandle) :
    lookupReg (insertReg reg id h) id = some h := by
  simp [insertReg, lookupReg]

theorem lookupReg_insertReg_ne (reg : Registry) (id k : ConnId) (h : ConnectionHandle)
    (hne : k ≠ id) :
    lookupReg (insertReg reg id h) k = lookupReg reg k := by
  simp [insertReg, lookupReg, Ne.symm hne]
  exact lookupReg_removeReg_ne reg id k hne

theorem observe_max_datagram_size (s : TxBurst) (st : Stats) :
    (s.observe st).max_datagram_size = s.max_datagram_size := by
  unfold TxBurst.observe
  split <;> rfl

theorem observe_burst_le (s : TxBurst) (st : Stats)
    (h : s.max_datagram_size * 10 ≤ s.max_send_burst) :
    (s.observe st).max_send_burst ≤ s.max_send_burst := by
  unfold TxBurst.observe
  split
  · show Nat.max (s.max_send_burst / 4 * 3) (s.max_datagram_size * 10) ≤ _
    have h1 : s.max_send_burst / 4 * 3 ≤ s.max_send_burst := by omega
    exact Nat.max_le.mpr ⟨h1, h⟩
  · exact Nat.le_refl _

theorem observe_burst_lb (s : TxBurst) (st : Stats)
    (h : s.max_datagram_size * 10 ≤ s.max_send_burst) :
    s.max_datagram_size * 10 ≤ (s.observe st).max_send_burst := by
  unfold TxBurst.observe
  split
  · show _ ≤ Nat.max (s.max_send_burst / 4 * 3) (s.max_datagram_size * 10)
    exact Nat.le_max_right _ _
  · exact h

end Quic

namespace Quic

theorem burstInv_observe (p : Nat) (s : TxBurst) (st : Stats) (h : BurstInv p s) :
    BurstInv p (s.observe st) := by
  obtain ⟨h1, h2, h3⟩ := h
  have hmss : s.max_datagram_size * 10 ≤ s.max_send_burst := by rw [h1]; exact h2
  refine ⟨by rw [observe_max_datagram_size]; exact h1, ?_, ?_⟩
  · have := observe_burst_lb s st hmss
    rwa [h1] at this
  · exact Nat.le_trans (observe_burst_le s st hmss) h3

theorem burstInv_new (p : Nat) (hp : p * 10 ≤ MAX_IPV6_BUF_SIZE) :
    BurstInv p (TxBurst.new p) := ⟨rfl, hp, Nat.le_refl _⟩

theorem burstInv_runBurst (p : Nat) (s : TxBurst) (h : BurstInv p s) (obs : List Obs) :
    BurstInv p (runBurst s obs) := by
  induction obs generalizing s with
  | nil => exact h
  | cons o rest ih =>
    show BurstInv p (runBurst (s.maxSendBurst o.stats o.send_quantum).2 rest)
    exact ih _ (burstInv_observe p s o.stats h)

theorem runBurst_max_datagram_size (s : TxBurst) (obs : List Obs) :
    (runBurst s obs).max_datagram_size = s.max_datagram_size := by
  induction obs generalizing s with
  | nil => rfl
  | cons o rest ih =>
    show (runBurst (s.maxSendBurst o.stats o.send_quantum).2 rest).max_datagram_size = _
    rw [ih]
    exact observe_max_datagram_size s o.stats

theorem routeStep_eq_of_chosen_none (genCid : ConnId → ConnId) (recvOk : Bool)
    (reg : Registry) (hdr : Header) (h : chosenId genCid reg hdr = none) :
    routeStep genCid recvOk reg hdr = fallThroughCreate reg (genCid hdr.dcid) hdr := by
  unfold chosenId at h
  unfold routeStep
  cases h1 : lookupReg reg hdr.dcid with
  | some hh => rw [h1] at h; simp at h
  | none =>
    rw [h1] at h
    cases h2 : lookupReg reg (genCid hdr.dcid) with
    | some hh => rw [h2] at h; simp at h
    | none => simp [h1, h2]

theorem routeStep_eq_of_chosen_some (genCid : ConnId → ConnId) (recvOk : Bool)
    (reg : Registry) (hdr : Header) (k : ConnId) (h : ConnectionHandle)
    (hc : chosenId genCid reg hdr = some k) (hl : lookupReg reg k = some h) :
    routeStep genCid recvOk reg hdr = routeFound recvOk reg k h hdr := by
  unfold chosenId at hc
  unfold routeStep
  cases h1 : lookupReg reg hdr.dcid with
  | some hh =>
    rw [h1] at hc
    simp only [Option.some.injEq] at hc
    subst hc
    rw [h1] at hl
    simp only [Option.some.injEq] at hl
    subst hl
    simp [h1]
  | none =>
    rw [h1] at hc
    cases h2 : lookupReg reg (genCid hdr.dcid) with
    | some hh =>
      rw [h2] at hc
      simp only [Option.some.injEq] at hc
      subst hc
      rw [h2] at hl
      simp only [Option.some.injEq] at hl
      subst hl
      simp [h1, h2]
    | none => rw [h2] at hc; simp at hc

end Quic

namespace Quic

/-- C1: evaluation of `impl Drop for Connection` — dropping an Established
`Connection` whose TX task has not finished aborts the TX task, but no
connection id is ever sent on the listener drop channel, so the listener
never reaps the registry entry for it. -/
theorem drop_aborts_tx_sends_no_id (s : EstablishedStateM) :
    Connection.dropEffects (Connection.established s)
      = { txAborted := !s.txFinished, dropIdSent := none } ∧
    Connection.dropEffects (Connection.established ⟨[1], false⟩)
      = { txAborted := true, dropIdSent := none } := ⟨rfl, rfl⟩

/-- C2 counterexample: a datagram whose dcid `[1]` misses and whose derived
id `[2]` finds an Incoming handle with a queued `Ignored` response: the code
removes under `header.dcid`, so the entry under the id by which the handle
was found (`[2]`) survives the step. -/
theorem ignored_removal_misses_derived_entry :
    (routeStep (fun _ => [2]) true [([2], ConnectionHandle.incoming ChanRead.ignored)]
        ⟨[1], PacketType.short⟩).2 = RouteAction.removedAfterResult ∧
    lookupReg (routeStep (fun _ => [2]) true
        [([2], ConnectionHandle.incoming ChanRead.ignored)]
        ⟨[1], PacketType.short⟩).1 [2]
      = some (ConnectionHandle.incoming ChanRead.ignored) := by decide

/-- C2 (amended): on an `Ignored`/`Rejected` handshake response the listener
removes the registry entry under `header.dcid` (not under the id by which
the handle was found) and continues; the entry under `header.dcid` is gone
afterwards. -/
theorem ignored_rejected_removes_dcid_entry (genCid : ConnId → ConnId) (recvOk : Bool)
    (reg : Registry) (hdr : Header) (k : ConnId) (r : ChanRead)
    (hc : chosenId genCid reg hdr = some k)
    (hl : lookupReg reg k = some (ConnectionHandle.incoming r))
    (hr : r = ChanRead.ignored ∨ r = ChanRead.rejected) :
    routeStep genCid recvOk reg hdr
      = (removeReg reg hdr.dcid, RouteAction.removedAfterResult) ∧
    lookupReg (routeStep genCid recvOk reg hdr).1 hdr.dcid = none := by
  have hstep := routeStep_eq_of_chosen_some genCid recvOk reg hdr k _ hc hl
  rcases hr with h | h <;> subst h <;>
    exact ⟨hstep, by rw [hstep]; exact lookupReg_removeReg_self _ _⟩

/-- C2 witness for the amended theorem: a handle found by the first lookup
with a queued `Ignored` response is indeed removed and the loop continues. -/
theorem ignored_rejected_removes_dcid_entry_witness :
    routeStep (fun _ => [2]) true [([1], ConnectionHandle.incoming ChanRead.ignored)]
        ⟨[1], PacketType.short⟩
      = (removeReg [([1], ConnectionHandle.incoming ChanRead.ignored)] [1],
         RouteAction.removedAfterResult) ∧
    lookupReg (routeStep (fun _ => [2]) true
        [([1], ConnectionHandle.incoming ChanRead.ignored)] ⟨[1], PacketType.short⟩).1 [1]
      = none :=
  ignored_rejected_removes_dcid_entry (fun _ => [2]) true
    [([1], ConnectionHandle.incoming ChanRead.ignored)] ⟨[1], PacketType.short⟩
    [1] ChanRead.ignored (by decide) (by decide) (Or.inl rfl)

/-- C4 counterexample: a datagram of type `Initial` that routes to an
Incoming handle whose response channel is disconnected does not make the
listener continue: the entry is removed and then the fall-through code
creates a fresh Incoming handle from that same datagram. -/
theorem disconnected_initial_creates_new_incoming :
    routeStep (fun _ => [9]) true [([1], ConnectionHandle.incoming ChanRead.disconnected)]
        ⟨[1], PacketType.initial⟩
      = ([([1], ConnectionHandle.incoming ChanRead.empty)], RouteAction.newIncoming [1]) := by
  decide

/-- C4 (amended): on a disconnected handshake response channel the listener
removes the entry under `header.dcid` and falls through (no `continue`):
a non-`Initial` datagram is then dropped, but an `Initial` datagram creates
a new Incoming handle inserted under the id by which the old handle was
found, and `accept` returns the new connection. -/
theorem disconnected_removes_then_falls_through (genCid : ConnId → ConnId) (recvOk : Bool)
    (reg : Registry) (hdr : Header) (k : ConnId)
    (hc : chosenId genCid reg hdr = some k)
    (hl : lookupReg reg k = some (ConnectionHandle.incoming ChanRead.disconnected)) :
    routeStep genCid recvOk reg hdr = fallThroughCreate (removeReg reg hdr.dcid) k hdr ∧
    (hdr.ty ≠ PacketType.initial →
        routeStep genCid recvOk reg hdr
          = (removeReg reg hdr.dcid, RouteAction.droppedNonInitial)) ∧
    (hdr.ty = PacketType.initial →
        routeStep genCid recvOk reg hdr
          = (insertReg (removeReg reg hdr.dcid) k (ConnectionHandle.incoming ChanRead.empty),
             RouteAction.newIncoming k)) := by
  have hstep := routeStep_eq_of_chosen_some genCid recvOk reg hdr k _ hc hl
  refine ⟨hstep, fun hne => ?_, fun he => ?_⟩
  · rw [hstep]
    show fallThroughCreate (removeReg reg hdr.dcid) k hdr = _
    unfold fallThroughCreate
    rw [if_neg hne]
  · rw [hstep]
    show fallThroughCreate (removeReg reg hdr.dcid) k hdr = _
    unfold fallThroughCreate
    rw [if_pos he]

/-- C4 witness for the amended theorem, at the counterexample input. -/
theorem disconnected_removes_then_falls_through_witness :
    routeStep (fun _ => [9]) true [([1], ConnectionHandle.incoming ChanRead.disconnected)]
        ⟨[1], PacketType.initial⟩
      = (insertReg (removeReg [([1], ConnectionHandle.incoming ChanRead.disconnected)] [1])
           [1] (ConnectionHandle.incoming ChanRead.empty),
         RouteAction.newIncoming [1]) :=
  (disconnected_removes_then_falls_through (fun _ => [9]) true
    [([1], ConnectionHandle.incoming ChanRead.disconnected)] ⟨[1], PacketType.initial⟩
    [1] (by decide) (by decide)).2.2 rfl

/-- C5: `Connection::establish` replaces an Incoming connection by
`Established(state)` and returns `Ok`; on an Established connection it fails
with `InternalError` and leaves the value unchanged; hence a second
`establish` after a successful one always fails. -/
theorem connection_establish_once (s : IncomingStateM) (e st st2 : EstablishedStateM) :
    Connection.establish (Connection.incoming s) st
      = (Except.ok (), Connection.established st) ∧
    Connection.establish (Connection.established e) st
      = (Except.error ErrType.internalError, Connection.established e) ∧
    Connection.establish ((Connection.establish (Connection.incoming s) st).2) st2
      = (Except.error ErrType.internalError, Connection.established st) :=
  ⟨rfl, rfl, rfl⟩

/-- C9: `ConnectionHandle::establish` on an already-Established handle is a
silent no-op — the first Established handle is kept, so a registry handle
never goes back to Incoming and is never replaced by a second Established
handle. -/
theorem handle_establish_silent_on_established (e h h2 : EstablishedHandle) (r : ChanRead) :
    ConnectionHandle.establish (ConnectionHandle.established e) h
      = ConnectionHandle.established e ∧
    ConnectionHandle.establish
        (ConnectionHandle.establish (ConnectionHandle.incoming r) h) h2
      = ConnectionHandle.established h :=
  ⟨rfl, rfl⟩

end Quic

namespace Quic

/-- C3 counterexample: after the stats sequence (sent=1000, lost=1),
(sent=2000, lost=5) from the initial state, the stored `max_send_burst` is
65487 / 4 * 3 = 49113, which is not 65487·3/4 rounded down = 49115. -/
theorem burst_shrink_not_three_quarters :
    (((TxBurst.new 1350).maxSendBurst ⟨1000, 1⟩ 60000).2.maxSendBurst
        ⟨2000, 5⟩ 60000).2.max_send_burst = 49113 ∧
    65487 * 3 / 4 = 49115 ∧ (49113 : Nat) ≠ 49115 := by decide

/-- C3 (amended): on the stats sequence (1000, 1) then (2000, 5) from the
initial state (mss 1350), the first call does not shrink (0.001 is not more
than 0.001 above the stored 0), and the second call scales the stored burst
by integer division `/ 4 * 3` — from 65487 to 49113, not floor(65487·3/4) —
clamps it to a minimum of 10 × mss, and stores the new loss rate 5/2000. -/
theorem burst_shrink_scaled_by_int_div (q1 q2 : Nat) :
    ((TxBurst.new 1350).maxSendBurst ⟨1000, 1⟩ q1).2 = TxBurst.new 1350 ∧
    (((TxBurst.new 1350).maxSendBurst ⟨1000, 1⟩ q1).2.maxSendBurst ⟨2000, 5⟩ q2).2
      = TxBurst.mk (LossRate.frac 5 2000) (Nat.max (65487 / 4 * 3) (1350 * 10)) 1350 ∧
    Nat.max (65487 / 4 * 3) (1350 * 10) = 49113 :=
  ⟨rfl, rfl, by decide⟩

/-- C6 counterexample: the STORED `max_send_burst` is not always a multiple
of `max_datagram_size`: one shrinking call from the initial state stores
49113, which is not a multiple of 1350. -/
theorem txBurst_stored_not_multiple :
    (((TxBurst.new 1350).maxSendBurst ⟨2000, 5⟩ 60000).2.max_send_burst = 49113) ∧
    ¬ (1350 ∣ (((TxBurst.new 1350).maxSendBurst ⟨2000, 5⟩ 60000).2.max_send_burst)) := by
  decide

/-- C6 (amended): for every observation sequence, provided
10 × max_datagram_size ≤ 65487 (true for the configured 1350), the stored
`max_send_burst` stays bounded below by 10 × max_datagram_size and is
monotonically non-increasing at every call; each call returns
`min(send_quantum, max_send_burst)` rounded down to an integer multiple of
`max_datagram_size` — the RETURNED value, not the stored one, is the
multiple of the datagram size. -/
theorem txBurst_run_invariants (p : Nat) (hp : p * 10 ≤ MAX_IPV6_BUF_SIZE)
    (obs : List Obs) (st : Stats) (q : Nat) :
    p * 10 ≤ ((runBurst (TxBurst.new p) obs).maxSendBurst st q).2.max_send_burst ∧
    ((runBurst (TxBurst.new p) obs).maxSendBurst st q).2.max_send_burst
      ≤ (runBurst (TxBurst.new p) obs).max_send_burst ∧
    ((runBurst (TxBurst.new p) obs).maxSendBurst st q).1
      = Nat.min q ((runBurst (TxBurst.new p) obs).maxSendBurst st q).2.max_send_burst
          / p * p ∧
    p ∣ ((runBurst (TxBurst.new p) obs).maxSendBurst st q).1 := by
  have hI := burstInv_runBurst p _ (burstInv_new p hp) obs
  obtain ⟨h1, h2, h3⟩ := hI
  have hmss : (runBurst (TxBurst.new p) obs).max_datagram_size * 10
      ≤ (runBurst (TxBurst.new p) obs).max_send_burst := by rw [h1]; exact h2
  have hret : ((runBurst (TxBurst.new p) obs).maxSendBurst st q).1
      = Nat.min q ((runBurst (TxBurst.new p) obs).observe st).max_send_burst
          / ((runBurst (TxBurst.new p) obs).observe st).max_datagram_size
          * ((runBurst (TxBurst.new p) obs).observe st).max_datagram_size := rfl
  have hobs : ((runBurst (TxBurst.new p) obs).maxSendBurst st q).2
      = (runBurst (TxBurst.new p) obs).observe st := rfl
  have hmsseq : ((runBurst (TxBurst.new p) obs).observe st).max_datagram_size = p := by
    rw [observe_max_datagram_size]; exact h1
  refine ⟨?_, ?_, ?_, ?_⟩
  · rw [hobs]
    have := observe_burst_lb (runBurst (TxBurst.new p) obs) st hmss
    rwa [h1] at this
  · rw [hobs]
    exact observe_burst_le (runBurst (TxBurst.new p) obs) st hmss
  · rw [hret, hobs, hmsseq]
  · rw [hret, hmsseq]
    exact Dvd.intro_left _ rfl

/-- C6 witness: the amended invariants evaluated on the scenario of the spec
(mss 1350, observations (1000, 1) then (2000, 5), send quantum 60000). -/
theorem txBurst_run_invariants_witness :
    1350 * 10 ≤ ((runBurst (TxBurst.new 1350) [⟨⟨1000, 1⟩, 65487⟩]).maxSendBurst
        ⟨2000, 5⟩ 60000).2.max_send_burst ∧
    ((runBurst (TxBurst.new 1350) [⟨⟨1000, 1⟩, 65487⟩]).maxSendBurst
        ⟨2000, 5⟩ 60000).2.max_send_burst
      ≤ (runBurst (TxBurst.new 1350) [⟨⟨1000, 1⟩, 65487⟩]).max_send_burst ∧
    ((runBurst (TxBurst.new 1350) [⟨⟨1000, 1⟩, 65487⟩]).maxSendBurst ⟨2000, 5⟩ 60000).1
      = Nat.min 60000 ((runBurst (TxBurst.new 1350) [⟨⟨1000, 1⟩, 65487⟩]).maxSendBurst
          ⟨2000, 5⟩ 60000).2.max_send_burst / 1350 * 1350 ∧
    1350 ∣ ((runBurst (TxBurst.new 1350) [⟨⟨1000, 1⟩, 65487⟩]).maxSendBurst
        ⟨2000, 5⟩ 60000).1 :=
  txBurst_run_invariants 1350 (by decide) [⟨⟨1000, 1⟩, 65487⟩] ⟨2000, 5⟩ 60000

/-- C7: routing tries `header.dcid` first and the derived id only on a miss,
so any chosen id is one of the two; when both lookups miss, a non-`Initial`
datagram is dropped with the registry unchanged, and an `Initial` datagram
inserts exactly one fresh Incoming handle under the derived id and returns
the new connection. -/
theorem route_lookup_priority_and_miss (genCid : ConnId → ConnId) (recvOk : Bool)
    (reg : Registry) (hdr : Header) :
    ((lookupReg reg hdr.dcid).isSome → chosenId genCid reg hdr = some hdr.dcid) ∧
    (lookupReg reg hdr.dcid = none → (lookupReg reg (genCid hdr.dcid)).isSome →
        chosenId genCid reg hdr = some (genCid hdr.dcid)) ∧
    (∀ k, chosenId genCid reg hdr = some k → k = hdr.dcid ∨ k = genCid hdr.dcid) ∧
    (chosenId genCid reg hdr = none → hdr.ty ≠ PacketType.initial →
        routeStep genCid recvOk reg hdr = (reg, RouteAction.droppedNonInitial)) ∧
    (chosenId genCid reg hdr = none → hdr.ty = PacketType.initial →
        routeStep genCid recvOk reg hdr
          = (insertReg reg (genCid hdr.dcid) (ConnectionHandle.incoming ChanRead.empty),
             RouteAction.newIncoming (genCid hdr.dcid))) := by
  refine ⟨?_, ?_, ?_, ?_, ?_⟩
  · intro hs
    cases h1 : lookupReg reg hdr.dcid with
    | some h => simp [chosenId, h1]
    | none => rw [h1] at hs; simp at hs
  · intro h1 h2s
    cases h2 : lookupReg reg (genCid hdr.dcid) with
    | some h => simp [chosenId, h1, h2]
    | none => rw [h2] at h2s; simp at h2s
  · intro k hk
    unfold chosenId at hk
    cases h1 : lookupReg reg hdr.dcid with
    | some h =>
      rw [h1] at hk
      simp only [Option.some.injEq] at hk
      exact Or.inl hk.symm
    | none =>
      rw [h1] at hk
      cases h2 : lookupReg reg (genCid hdr.dcid) with
      | some h =>
        rw [h2] at hk
        simp only [Option.some.injEq] at hk
        exact Or.inr hk.symm
      | none => rw [h2] at hk; simp at hk
  · intro hnone hne
    rw [routeStep_eq_of_chosen_none genCid recvOk reg hdr hnone]
    unfold fallThroughCreate
    rw [if_neg hne]
  · intro hnone he
    rw [routeStep_eq_of_chosen_none genCid recvOk reg hdr hnone]
    unfold fallThroughCreate
    rw [if_pos he]

/-- C7 witness: an `Initial` datagram with dcid `[3]` hitting an empty
registry inserts one fresh Incoming handle under the derived id `[7]`. -/
theorem route_lookup_priority_and_miss_witness :
    chosenId (fun _ => [7]) [] ⟨[3], PacketType.initial⟩ = none ∧
    routeStep (fun _ => [7]) true [] ⟨[3], PacketType.initial⟩
      = (insertReg [] [7] (ConnectionHandle.incoming ChanRead.empty),
         RouteAction.newIncoming [7]) :=
  ⟨by decide,
   (route_lookup_priority_and_miss (fun _ => [7]) true [] ⟨[3], PacketType.initial⟩).2.2.2.2
     (by decide) rfl⟩

/-- C8 counterexample: with stats sent = 0, lost = 1 from the initial state
the instantaneous loss rate is +∞ (IEEE-754 `1.0 / 0.0`), not 0: the call
shrinks `max_send_burst` from 65487 to 49113 and stores loss rate +∞. -/
theorem sent_zero_lost_pos_shrinks :
    (((TxBurst.new 1350).maxSendBurst ⟨0, 1⟩ 60000).2.max_send_burst = 49113) ∧
    (((TxBurst.new 1350).maxSendBurst ⟨0, 1⟩ 60000).2.max_send_burst
      ≠ (TxBurst.new 1350).max_send_burst) ∧
    (((TxBurst.new 1350).maxSendBurst ⟨0, 1⟩ 60000).2.loss_rate = LossRate.inf) := by
  decide

/-- C8 (amended): when stats.sent == 0 the loss rate is NaN if stats.lost
== 0 — then no shrink happens and the state is unchanged — but +∞ when
stats.lost > 0, in which case (for any finite stored loss rate) the shrink
branch runs: the burst is scaled and clamped and the stored loss rate
becomes +∞. -/
theorem sent_zero_semantics (s : TxBurst) (q num den b m lost : Nat) :
    (s.maxSendBurst ⟨0, 0⟩ q).2 = s ∧
    ((TxBurst.mk (LossRate.frac num den) b m).maxSendBurst ⟨0, lost + 1⟩ q).2
      = TxBurst.mk LossRate.inf (Nat.max (b / 4 * 3) (m * 10)) m :=
  ⟨rfl, rfl⟩

/-- C10: the construction parameter of `TxBurst::new` is the divisor of every
later `max_send_burst` call and is never mutated, so a positive configured
UDP payload size keeps the division well-defined along any run. -/
theorem divisor_positive_along_run (p : Nat) (hp : 0 < p) (obs : List Obs) :
    (runBurst (TxBurst.new p) obs).max_datagram_size = p ∧
    0 < (runBurst (TxBurst.new p) obs).max_datagram_size := by
  have h := runBurst_max_datagram_size (TxBurst.new p) obs
  exact ⟨h, by rw [h]; exact hp⟩

/-- C10 witness at the configured IPv6 datagram size. -/
theorem divisor_positive_along_run_witness :
    (runBurst (TxBurst.new 1350) [⟨⟨0, 0⟩, 1⟩, ⟨⟨2000, 5⟩, 60000⟩]).max_datagram_size
      = 1350 ∧
    0 < (runBurst (TxBurst.new 1350)
        [⟨⟨0, 0⟩, 1⟩, ⟨⟨2000, 5⟩, 60000⟩]).max_datagram_size :=
  divisor_positive_along_run 1350 (by decide) [⟨⟨0, 0⟩, 1⟩, ⟨⟨2000, 5⟩, 60000⟩]

end Quic
